import Mathlib

/-!
Shallow embedding of `v8coder.py` (the v8 structured-clone token codec):
the tag and subtag vocabularies, the ZigZag and SwapBytes codecs, the
varint sub-codec and byte-stream primitive (both external to the source
file, modelled from the spec), and the Reader/Writer token dispatch.

Bytes are modelled as `Nat` (the source is Python 2, where a byte string
is a sequence of one-character strings); streams are `List Nat`.
-/

namespace V8

/-- `SerializationTag` from the source. Python's `Enum` turns a member whose
value repeats an earlier one into an alias of the first declaration, so
`SPARSE_ARRAY` (value '@', after `PADDING`) and `FILE_INDEX` (value 'f',
after `FILE`) are not distinct members; they are defined below as
abbreviations, exactly as Python aliases them. -/
inductive SerializationTag where
  | INVALID
  | PADDING
  | UNDEFINED
  | NULL
  | TRUE
  | FALSE
  | STRING
  | STRING_UCHAR
  | INT32
  | UINT32
  | DATE
  | MESSAGE_PORT
  | NUMBER
  | BLOB
  | BLOB_INDEX
  | FILE
  | DOM_FILE_SYSTEM
  | FILE_LIST
  | FILE_LIST_INDEX
  | IMAGE_DATA
  | OBJECT
  | DENSE_ARRAY
  | REG_EXP
  | ARRAY_BUFFER
  | ARRAY_BUFFER_TRANSFER
  | IMAGE_BITMAP_TRANSFER
  | ARRAY_BUFFER_VIEW
  | SHARED_ARRAY_BUFFER_TRANSFER
  | CRYPTO_KEY
  | OBJECT_REFERENCE
  | GENERATE_FRESH_OBJECT
  | GENERATE_FRESH_SPARSE_ARRAY
  | GENERATE_FRESH_DENSE_ARRAY
  | REFERENCE_COUNT
  | STRING_OBJECT
  | NUMBER_OBJECT
  | TRUE_OBJECT
  | FALSE_OBJECT
  | COMPOSITOR_PROXY
  | MAP
  | SET
  | GENERATE_FRESH_MAP
  | GENERATE_FRESH_SET
  | VERSION
  deriving DecidableEq

/-- The one-byte wire value of each tag (the ASCII code of the character
literal in the source; VERSION is '\xff' = 255). -/
def SerializationTag.value : SerializationTag → Nat
  | .INVALID => 33
  | .PADDING => 64
  | .UNDEFINED => 95
  | .NULL => 48
  | .TRUE => 84
  | .FALSE => 70
  | .STRING => 83
  | .STRING_UCHAR => 99
  | .INT32 => 73
  | .UINT32 => 85
  | .DATE => 68
  | .MESSAGE_PORT => 77
  | .NUMBER => 78
  | .BLOB => 98
  | .BLOB_INDEX => 105
  | .FILE => 102
  | .DOM_FILE_SYSTEM => 100
  | .FILE_LIST => 108
  | .FILE_LIST_INDEX => 76
  | .IMAGE_DATA => 35
  | .OBJECT => 123
  | .DENSE_ARRAY => 36
  | .REG_EXP => 82
  | .ARRAY_BUFFER => 66
  | .ARRAY_BUFFER_TRANSFER => 116
  | .IMAGE_BITMAP_TRANSFER => 71
  | .ARRAY_BUFFER_VIEW => 86
  | .SHARED_ARRAY_BUFFER_TRANSFER => 117
  | .CRYPTO_KEY => 75
  | .OBJECT_REFERENCE => 94
  | .GENERATE_FRESH_OBJECT => 111
  | .GENERATE_FRESH_SPARSE_ARRAY => 97
  | .GENERATE_FRESH_DENSE_ARRAY => 65
  | .REFERENCE_COUNT => 63
  | .STRING_OBJECT => 115
  | .NUMBER_OBJECT => 110
  | .TRUE_OBJECT => 121
  | .FALSE_OBJECT => 120
  | .COMPOSITOR_PROXY => 67
  | .MAP => 58
  | .SET => 44
  | .GENERATE_FRESH_MAP => 59
  | .GENERATE_FRESH_SET => 39
  | .VERSION => 255

/-- `SerializationTag.SPARSE_ARRAY` is a Python `Enum` alias: its value '@'
repeats `PADDING`'s, so it denotes the same member. -/
def SerializationTag.SPARSE_ARRAY : SerializationTag := .PADDING

/-- `SerializationTag.FILE_INDEX` is a Python `Enum` alias: its value 'f'
repeats `FILE`'s, so it denotes the same member. -/
def SerializationTag.FILE_INDEX : SerializationTag := .FILE

/-- The canonical members in declaration order (aliases omitted), as in
Python's `Enum` member map. -/
def SerializationTag.members : List SerializationTag :=
  [.INVALID, .PADDING, .UNDEFINED, .NULL, .TRUE, .FALSE, .STRING,
   .STRING_UCHAR, .INT32, .UINT32, .DATE, .MESSAGE_PORT, .NUMBER, .BLOB,
   .BLOB_INDEX, .FILE, .DOM_FILE_SYSTEM, .FILE_LIST, .FILE_LIST_INDEX,
   .IMAGE_DATA, .OBJECT, .DENSE_ARRAY, .REG_EXP, .ARRAY_BUFFER,
   .ARRAY_BUFFER_TRANSFER, .IMAGE_BITMAP_TRANSFER, .ARRAY_BUFFER_VIEW,
   .SHARED_ARRAY_BUFFER_TRANSFER, .CRYPTO_KEY, .OBJECT_REFERENCE,
   .GENERATE_FRESH_OBJECT, .GENERATE_FRESH_SPARSE_ARRAY,
   .GENERATE_FRESH_DENSE_ARRAY, .REFERENCE_COUNT, .STRING_OBJECT,
   .NUMBER_OBJECT, .TRUE_OBJECT, .FALSE_OBJECT, .COMPOSITOR_PROXY, .MAP,
   .SET, .GENERATE_FRESH_MAP, .GENERATE_FRESH_SET, .VERSION]

/-- `SerializationTag(b)`: Python `Enum` value lookup — the first declared
member with the given value, or a `ValueError` (here `none`) if unmapped. -/
def SerializationTag.ofByte? (b : Nat) : Option SerializationTag :=
  SerializationTag.members.find? (fun t => t.value = b)

/-- `ArrayBufferViewSubtag` from the source. -/
inductive ArrayBufferViewSubtag where
  | BYTE_ARRAY
  | UNSIGNED_BYTE_ARRAY
  | UNSIGNED_BYTE_CLAMPED_ARRAY
  | SHORT_ARRAY
  | UNSIGNED_SHORT_ARRAY
  | INT_ARRAY
  | UNSIGNED_INT_ARRAY
  | FLOAT_ARRAY
  | DOUBLE_ARRAY
  | DATA_VIEW
  deriving DecidableEq

/-- The one-byte wire value of each subtag. -/
def ArrayBufferViewSubtag.value : ArrayBufferViewSubtag → Nat
  | .BYTE_ARRAY => 98
  | .UNSIGNED_BYTE_ARRAY => 66
  | .UNSIGNED_BYTE_CLAMPED_ARRAY => 67
  | .SHORT_ARRAY => 119
  | .UNSIGNED_SHORT_ARRAY => 87
  | .INT_ARRAY => 100
  | .UNSIGNED_INT_ARRAY => 68
  | .FLOAT_ARRAY => 102
  | .DOUBLE_ARRAY => 70
  | .DATA_VIEW => 63

/-- The subtag members in declaration order. -/
def ArrayBufferViewSubtag.members : List ArrayBufferViewSubtag :=
  [.BYTE_ARRAY, .UNSIGNED_BYTE_ARRAY, .UNSIGNED_BYTE_CLAMPED_ARRAY,
   .SHORT_ARRAY, .UNSIGNED_SHORT_ARRAY, .INT_ARRAY, .UNSIGNED_INT_ARRAY,
   .FLOAT_ARRAY, .DOUBLE_ARRAY, .DATA_VIEW]

/-- `ArrayBufferViewSubtag(b)`: Python `Enum` value lookup. -/
def ArrayBufferViewSubtag.ofByte? (b : Nat) : Option ArrayBufferViewSubtag :=
  ArrayBufferViewSubtag.members.find? (fun t => t.value = b)

/-- The failure modes of the codec, named as in the spec's error-handling
design: `invalidTag` is the `ValueError` of an unmapped `Enum` lookup,
`unsupportedVersion` the `assert value <= 9`, `notImplemented` the
`NotImplementedError` (carrying the tag), `shortRead` an exhausted byte
source, `invalidPayload` a structural assert (short STRING write,
odd-length SwapBytes decode), `indexError` the `result[-1]` of
`SwapBytes.decode` on an empty result, and `badArgs` a tuple-unpacking
mismatch in `write_token`. -/
inductive CodecErr where
  | shortRead
  | invalidTag
  | unsupportedVersion
  | notImplemented (tag : SerializationTag)
  | invalidPayload
  | indexError
  | badArgs
  deriving DecidableEq

/-- `ZigZag.encode` from the source, on Python's arbitrary-precision
two's-complement integers: `if value & (1 << 31): value = ((~value) << 1) + 1
else: value <<= 1`. `Int.land`, `Int.lnot` and the `Int` shifts have exactly
Python's two's-complement semantics. -/
def ZigZag.encode (value : Int) : Int :=
  if Int.land value (1 <<< 31) ≠ 0 then (Int.lnot value) <<< 1 + 1
  else value <<< 1

/-- `ZigZag.decode` from the source: `if value & 1: value = ~(value >> 1)
else: value >>= 1` (Python `>>` is an arithmetic shift, as on `Int`). -/
def ZigZag.decode (value : Int) : Int :=
  if Int.land value 1 ≠ 0 then Int.lnot (value >>> 1)
  else value >>> 1

/-- The loop of `SwapBytes.encode`: consecutive 2-byte groups are swapped;
a trailing unpaired byte is preceded by the PADDING discriminant. -/
def SwapBytes.encode : List Nat → List Nat
  | [] => []
  | [b] => [SerializationTag.PADDING.value, b]
  | b0 :: b1 :: rest => b1 :: b0 :: SwapBytes.encode rest

/-- The loop of `SwapBytes.decode`: swaps each 2-byte group back, with the
source's `assert len(b) == 2` failing (`none`) on an odd-length input. -/
def SwapBytes.swapLoop : List Nat → Option (List Nat)
  | [] => some []
  | [_] => none
  | b0 :: b1 :: rest => (SwapBytes.swapLoop rest).map (fun r => b1 :: b0 :: r)

/-- `SwapBytes.decode` from the source: after the swapping loop it
evaluates `result[-1]` (an `IndexError` when `result` is empty) and drops a
final byte equal to the PADDING discriminant. -/
def SwapBytes.decode (data : List Nat) : Except CodecErr (List Nat) :=
  match SwapBytes.swapLoop data with
  | Option.none => .error .invalidPayload
  | some result =>
    match result.getLast? with
    | Option.none => .error .indexError
    | some last =>
      if last = SerializationTag.PADDING.value then .ok result.dropLast
      else .ok result

/-- Modelled from the spec: the external `varint` library's `encode` —
base-128 little-endian, 7 payload bits per byte, continuation bit (0x80)
set on all but the final byte. (The library is imported by the source but
is not part of this repository.) -/
def Varint.encode (n : Nat) : List Nat :=
  if n < 128 then [n] else (n % 128 + 128) :: Varint.encode (n / 128)
termination_by n
decreasing_by exact Nat.div_lt_self (by omega) (by omega)

/-- Modelled from the spec: the external `varint` library's
`decode_stream` — reads bytes until one with the continuation bit clear,
assembling the 7-bit groups little-endian; consumes exactly the bytes
needed and fails on an exhausted source. Returns the value and the rest of
the stream. -/
def Varint.decode : List Nat → Except CodecErr (Nat × List Nat)
  | [] => .error .shortRead
  | b :: rest =>
    if b < 128 then .ok (b, rest)
    else
      match Varint.decode rest with
      | .ok (v, r) => .ok (b % 128 + 128 * v, r)
      | .error e => .error e

/-- Modelled from the spec: the byte-stream primitive's `read(n)` —
returns exactly `n` bytes (and the rest of the stream) or fails if the
source is exhausted. -/
def readBytes (n : Nat) (s : List Nat) : Except CodecErr (List Nat × List Nat) :=
  if s.length < n then .error .shortRead else .ok (s.take n, s.drop n)

/-- The payload half of a token: absent, a varint value, a decoded signed
32-bit value, raw bytes, the 8 raw bytes of an 8-byte floating value, or
the (subtag, offset, length) triple of an ARRAY_BUFFER_VIEW. The 8-byte
floating value is carried as its wire bytes: the byte-stream primitive's
`read_double`/`write_double` transfer it opaquely and the codec never
inspects it. -/
inductive Payload where
  | none
  | vint (v : Nat)
  | i32 (v : Int)
  | bytes (s : List Nat)
  | double (d : List Nat)
  | view (sub : ArrayBufferViewSubtag) (off : Nat) (len : Nat)
  deriving DecidableEq

/-- `NOOP_TAGS` from the source. -/
def NOOP_TAGS : List SerializationTag :=
  [.PADDING, .GENERATE_FRESH_OBJECT]

/-- `VARINT_TAGS` from the source. -/
def VARINT_TAGS : List SerializationTag :=
  [.REFERENCE_COUNT, .OBJECT]

/-- `Reader.read_tag`: reads one byte (failing on an exhausted source) and
maps it through the `SerializationTag` enumeration, failing with
`InvalidTag` (Python `ValueError`) if unmapped. -/
def Reader.read_tag (s : List Nat) : Except CodecErr (SerializationTag × List Nat) :=
  match s with
  | [] => .error .shortRead
  | b :: rest =>
    match SerializationTag.ofByte? b with
    | some t => .ok (t, rest)
    | Option.none => .error .invalidTag

/-- `Reader.read_token` from the source: reads a tag and dispatches on it,
returning the token and the rest of the stream. The branch order and
payload shapes follow the source line by line; the `assert value <= 9` of
the VERSION branch is the `unsupportedVersion` failure. -/
def Reader.read_token (s : List Nat) :
    Except CodecErr ((SerializationTag × Payload) × List Nat) := do
  let (tag, s) ← Reader.read_tag s
  if tag ∈ NOOP_TAGS then
    return ((tag, .none), s)
  else if tag ∈ VARINT_TAGS then
    let (v, s) ← Varint.decode s
    return ((tag, .vint v), s)
  else if tag = .VERSION then
    let (v, s) ← Varint.decode s
    if v ≤ 9 then return ((tag, .vint v), s)
    else .error .unsupportedVersion
  else if tag = .ARRAY_BUFFER then
    let (buflen, s) ← Varint.decode s
    let (buf, s) ← readBytes buflen s
    return ((tag, .bytes buf), s)
  else if tag = .STRING then
    let (strlen, s) ← Varint.decode s
    let (str, s) ← readBytes strlen s
    return ((tag, .bytes str), s)
  else if tag = .DATE then
    let (d, s) ← readBytes 8 s
    return ((tag, .double d), s)
  else if tag = .INT32 then
    let (v, s) ← Varint.decode s
    return ((tag, .i32 (ZigZag.decode (Int.ofNat v))), s)
  else if tag = .ARRAY_BUFFER_VIEW then
    match s with
    | [] => .error .shortRead
    | sb :: s =>
      match ArrayBufferViewSubtag.ofByte? sb with
      | Option.none => .error .invalidTag
      | some sub =>
        let (off, s) ← Varint.decode s
        let (len, s) ← Varint.decode s
        return ((tag, .view sub off len), s)
  else
    .error (.notImplemented tag)

/-- The destination after a `write_token` call that started from an empty
destination: the bytes written before the call returned or raised, and the
error if it raised. The underlying destination is append-only, so the
bytes written by a failing call remain. -/
structure WriteResult where
  out : List Nat
  err : Option CodecErr
  deriving DecidableEq

/-- `Writer.write_tag`: the single discriminant byte. -/
def Writer.write_tag (tag : SerializationTag) : List Nat :=
  [tag.value]

/-- `Writer.write_token` from the source, branch for branch. The source's
slips are preserved: the DATE, INT32 and ARRAY_BUFFER_VIEW branches never
call `write_tag`, and the STRING branch writes the tag byte before its
`assert len(value) > 1`. The INT32 branch feeds the zigzag value to the
varint encoder via `toNat`; for every signed 32-bit input the zigzag value
is already non-negative, and on a negative value the real library would
not terminate. Each branch unpacks its argument tuple first (a mismatch
raises before anything is written). -/
def Writer.write_token (tag : SerializationTag) (args : Payload) : WriteResult :=
  if tag ∈ NOOP_TAGS then
    { out := Writer.write_tag tag, err := Option.none }
  else if tag = .VERSION then
    match args with
    | .vint v => { out := Writer.write_tag tag ++ Varint.encode v, err := Option.none }
    | _ => { out := [], err := some .badArgs }
  else if tag ∈ VARINT_TAGS then
    match args with
    | .vint v => { out := Writer.write_tag tag ++ Varint.encode v, err := Option.none }
    | _ => { out := [], err := some .badArgs }
  else if tag = .ARRAY_BUFFER then
    match args with
    | .bytes v =>
      { out := Writer.write_tag tag ++ Varint.encode v.length ++ v, err := Option.none }
    | _ => { out := [], err := some .badArgs }
  else if tag = .STRING then
    match args with
    | .bytes v =>
      if v.length > 1 then
        { out := Writer.write_tag tag ++ Varint.encode v.length ++ v, err := Option.none }
      else
        { out := Writer.write_tag tag, err := some .invalidPayload }
    | _ => { out := [], err := some .badArgs }
  else if tag = .DATE then
    match args with
    | .double d => { out := d, err := Option.none }
    | _ => { out := [], err := some .badArgs }
  else if tag = .INT32 then
    match args with
    | .i32 v => { out := Varint.encode (ZigZag.encode v).toNat, err := Option.none }
    | _ => { out := [], err := some .badArgs }
  else if tag = .ARRAY_BUFFER_VIEW then
    match args with
    | .view sub off len =>
      { out := [sub.value] ++ Varint.encode off ++ Varint.encode len, err := Option.none }
    | _ => { out := [], err := some .badArgs }
  else
    { out := [], err := some (.notImplemented tag) }

/-- The tags handled by both `read_token` and `write_token` (the spec's
"handled set"): every other member of the vocabulary falls through to the
`NotImplementedError` branch on both sides. -/
def handledTags : List SerializationTag :=
  [.PADDING, .GENERATE_FRESH_OBJECT, .REFERENCE_COUNT, .OBJECT, .VERSION,
   .ARRAY_BUFFER, .STRING, .DATE, .INT32, .ARRAY_BUFFER_VIEW]

/-- Varint round-trip: decoding the encoding of `n`, followed by any
remaining stream, yields `n` and leaves exactly that remainder. -/
theorem Varint.decode_encode (n : Nat) (rest : List Nat) :
    Varint.decode (Varint.encode n ++ rest) = .ok (n, rest) := by
  induction n using Nat.strong_induction_on generalizing rest with
  | _ n ih =>
    rw [Varint.encode]
    by_cases h : n < 128
    · simp [h, Varint.decode]
    · have hdiv : n / 128 < n := Nat.div_lt_self (by omega) (by omega)
      have hmod : ¬ (n % 128 + 128 < 128) := by omega
      simp only [if_neg h, List.cons_append]
      rw [Varint.decode]
      simp only [if_neg hmod, ih _ hdiv]
      have : n % 128 + 128 * (n / 128) = n ∧ (n % 128 + 128) % 128 = n % 128 := by omega
      simp [this.2, this.1]

/-- A value below 128 encodes as a single byte. -/
theorem Varint.encode_small (n : Nat) (h : n < 128) : Varint.encode n = [n] := by
  rw [Varint.encode]
  simp [h]

/-- Reading exactly the whole stream returns it and leaves nothing. -/
theorem readBytes_all (s : List Nat) : readBytes s.length s = .ok (s, []) := by
  simp [readBytes]

/-- Evaluation of `read_token` on a VERSION tag byte followed by a stream
whose varint decodes to `v`. -/
theorem Reader.read_token_version_of (s : List Nat) (v : Nat) (r : List Nat)
    (h : Varint.decode s = .ok (v, r)) :
    Reader.read_token (255 :: s) =
      if v ≤ 9 then .ok ((.VERSION, .vint v), r) else .error .unsupportedVersion := by
  show Bind.bind (Varint.decode s) _ = _
  rw [h]
  rfl

/-- Evaluation of `read_token` on a STRING tag byte followed by a stream
whose varint length and byte read both succeed. -/
theorem Reader.read_token_string_of (s : List Nat) (len : Nat) (str r r2 : List Nat)
    (h : Varint.decode s = .ok (len, r)) (h2 : readBytes len r = .ok (str, r2)) :
    Reader.read_token (83 :: s) = .ok ((.STRING, .bytes str), r2) := by
  show Bind.bind (Varint.decode s) _ = _
  rw [h]
  show Bind.bind (readBytes len r) _ = _
  rw [h2]
  rfl

/-- Bit 31 of a natural number below `2 ^ 31` is clear, so the source's
`value & (1 << 31)` test is zero. -/
theorem land_pow31_ofNat (m : Nat) (hm : m < 2 ^ 31) :
    Int.land (Int.ofNat m) (1 <<< 31) = 0 := by
  rw [show (1 <<< 31 : ℤ) = Int.ofNat (2 ^ 31) from by decide]
  show Int.ofNat (m &&& 2 ^ 31) = 0
  rw [Nat.and_two_pow, Nat.testBit_lt_two_pow hm]
  simp

/-- Bit 31 of a negative integer at least `-(2 ^ 31)` is set (two's
complement), so the source's `value & (1 << 31)` test is non-zero. -/
theorem land_pow31_negSucc (m : Nat) (hm : m < 2 ^ 31) :
    Int.land (Int.negSucc m) (1 <<< 31) ≠ 0 := by
  rw [show (1 <<< 31 : ℤ) = Int.ofNat (2 ^ 31) from by decide]
  show Int.ofNat (Nat.ldiff (2 ^ 31) m) ≠ 0
  intro hz
  have hld : Nat.ldiff (2 ^ 31) m = 0 := Int.ofNat.inj hz
  have ht := Nat.testBit_ldiff (2 ^ 31) m 31
  rw [hld, Nat.zero_testBit, Nat.testBit_two_pow_self, Nat.testBit_lt_two_pow hm] at ht
  simp at ht

/-- Left-shifting a non-negative integer by one doubles it. -/
theorem shiftLeft_one_ofNat (m : Nat) : (Int.ofNat m) <<< (1 : ℤ) = Int.ofNat (2 * m) := by
  show Int.ofNat (Nat.shiftLeft' false m 1) = Int.ofNat (2 * m)
  rw [Nat.shiftLeft'_false, Nat.shiftLeft_eq]
  simp [Nat.mul_comm]

/-- `ZigZag.encode` on a non-negative 32-bit value takes the even branch. -/
theorem zigzag_encode_ofNat (m : Nat) (hm : m < 2 ^ 31) :
    ZigZag.encode (Int.ofNat m) = Int.ofNat (2 * m) := by
  unfold ZigZag.encode
  rw [if_neg (not_not_intro (land_pow31_ofNat m hm)), shiftLeft_one_ofNat]

/-- `ZigZag.encode` on a negative 32-bit value takes the odd branch. -/
theorem zigzag_encode_negSucc (m : Nat) (hm : m < 2 ^ 31) :
    ZigZag.encode (Int.negSucc m) = Int.ofNat (2 * m + 1) := by
  unfold ZigZag.encode
  rw [if_pos (land_pow31_negSucc m hm)]
  show (Int.ofNat m) <<< (1 : ℤ) + 1 = Int.ofNat (2 * m + 1)
  rw [shiftLeft_one_ofNat]
  rfl

/-- `ZigZag.decode` on an even value halves it. -/
theorem zigzag_decode_even (m : Nat) : ZigZag.decode (Int.ofNat (2 * m)) = Int.ofNat m := by
  unfold ZigZag.decode
  have hc : ¬ (Int.land (Int.ofNat (2 * m)) 1 ≠ 0) := by
    show ¬ (Int.ofNat ((2 * m) &&& 1) ≠ 0)
    rw [Nat.and_one_is_mod]
    simp [Nat.mul_mod_right]
  rw [if_neg hc]
  show Int.ofNat ((2 * m) >>> 1) = Int.ofNat m
  have : (2 * m) >>> 1 = m := by rw [Nat.shiftRight_eq_div_pow]; omega
  rw [this]

/-- `ZigZag.decode` on an odd value complements its half. -/
theorem zigzag_decode_odd (m : Nat) : ZigZag.decode (Int.ofNat (2 * m + 1)) = Int.negSucc m := by
  unfold ZigZag.decode
  have hc : Int.land (Int.ofNat (2 * m + 1)) 1 ≠ 0 := by
    show Int.ofNat ((2 * m + 1) &&& 1) ≠ 0
    rw [Nat.and_one_is_mod]
    have h2 : (2 * m + 1) % 2 = 1 := by omega
    rw [h2]
    simp
  rw [if_pos hc]
  show Int.lnot (Int.ofNat ((2 * m + 1) >>> 1)) = Int.negSucc m
  have : (2 * m + 1) >>> 1 = m := by rw [Nat.shiftRight_eq_div_pow]; omega
  rw [this]
  rfl

/-- The swap-back loop undoes the swap loop, up to the padding byte the
encoder appends to odd-length input: the result is the original list, with
the PADDING discriminant at the end when the input length was odd. -/
theorem swapLoop_encode (b : List Nat) :
    SwapBytes.swapLoop (SwapBytes.encode b) =
      some (if b.length % 2 = 0 then b else b ++ [SerializationTag.PADDING.value]) := by
  induction b using SwapBytes.encode.induct with
  | case1 => rfl
  | case2 x => rfl
  | case3 x y rest ih =>
    rw [show SwapBytes.encode (x :: y :: rest) = y :: x :: SwapBytes.encode rest from rfl]
    rw [show SwapBytes.swapLoop (y :: x :: SwapBytes.encode rest) =
        (SwapBytes.swapLoop (SwapBytes.encode rest)).map (fun r => x :: y :: r) from rfl]
    rw [ih]
    have hc : (x :: y :: rest).length % 2 = rest.length % 2 := by
      simp only [List.length_cons]
      omega
    rw [hc]
    by_cases hp : rest.length % 2 = 0
    · simp [hp]
    · simp [hp]

/-- Evaluation of `SwapBytes.decode` when the swap loop succeeds and the
result is non-empty: the final byte decides whether a padding sentinel is
dropped. -/
theorem swapbytes_decode_eval (data r : List Nat) (l : Nat)
    (h1 : SwapBytes.swapLoop data = some r) (h2 : r.getLast? = some l) :
    SwapBytes.decode data =
      if l = SerializationTag.PADDING.value then .ok r.dropLast else .ok r := by
  unfold SwapBytes.decode
  rw [h1]
  show (match r.getLast? with
    | Option.none => Except.error CodecErr.indexError
    | some last =>
      if last = SerializationTag.PADDING.value then Except.ok r.dropLast
      else Except.ok r) = _
  rw [h2]

/-- Claim C1 (code bug): the write-then-read round-trip fails for INT32.
`write_token(INT32, -1)` succeeds but emits only the zigzag varint `[0x01]`
without the 'I' tag byte (the source's INT32 branch never calls
`write_tag`), so `read_token` on the produced bytes fails with InvalidTag
instead of returning (INT32, -1). -/
theorem claim1_int32_write_read_broken :
    (Writer.write_token .INT32 (.i32 (-1))).err = Option.none ∧
    (Writer.write_token .INT32 (.i32 (-1))).out = [1] ∧
    Reader.read_token [1] = .error .invalidTag := by
  refine ⟨rfl, ?_, rfl⟩
  show Varint.encode (ZigZag.encode (-1)).toNat = [1]
  rw [show ((-1 : ℤ)) = Int.negSucc 0 from rfl, zigzag_encode_negSucc 0 (by norm_num)]
  rw [show (Int.ofNat (2 * 0 + 1)).toNat = 1 from rfl]
  exact Varint.encode_small 1 (by norm_num)

/-- Claim C2 (code bug): `write_token` does not emit the tag byte first for
every handled tag. The DATE branch emits only the 8 payload bytes (no 'D'),
and the ARRAY_BUFFER_VIEW branch emits only subtag, offset and length (no
'V'); both calls succeed, and the first emitted byte is not the tag's
discriminant. -/
theorem claim2_missing_tag_byte :
    (Writer.write_token .DATE (.double [0, 0, 0, 0, 0, 0, 0, 0])).err = Option.none ∧
    (Writer.write_token .DATE (.double [0, 0, 0, 0, 0, 0, 0, 0])).out = [0, 0, 0, 0, 0, 0, 0, 0] ∧
    (Writer.write_token .DATE (.double [0, 0, 0, 0, 0, 0, 0, 0])).out.head? ≠
      some SerializationTag.DATE.value ∧
    (Writer.write_token .ARRAY_BUFFER_VIEW (.view .FLOAT_ARRAY 0 16)).err = Option.none ∧
    (Writer.write_token .ARRAY_BUFFER_VIEW (.view .FLOAT_ARRAY 0 16)).out = [102, 0, 16] ∧
    (Writer.write_token .ARRAY_BUFFER_VIEW (.view .FLOAT_ARRAY 0 16)).out.head? ≠
      some SerializationTag.ARRAY_BUFFER_VIEW.value := by
  have hout : (Writer.write_token .ARRAY_BUFFER_VIEW (.view .FLOAT_ARRAY 0 16)).out
      = [102, 0, 16] := by
    show [(102 : Nat)] ++ Varint.encode 0 ++ Varint.encode 16 = [102, 0, 16]
    rw [Varint.encode_small 0 (by norm_num), Varint.encode_small 16 (by norm_num)]
    rfl
  refine ⟨rfl, rfl, by decide, rfl, hout, ?_⟩
  rw [hout]
  decide

/-- Claim C3 counterexample: a failing `write_token(STRING, "h")` is
partially emitted — the destination receives the tag byte, written before
the length assert fires, so it is not true that the destination receives
no bytes of the malformed token. -/
theorem claim3_counterexample :
    (Writer.write_token .STRING (.bytes [104])).err = some CodecErr.invalidPayload ∧
    (Writer.write_token .STRING (.bytes [104])).out ≠ [] := by decide

/-- Claim C3 as amended: when `write_token` fails, the destination has
received at most the already-written tag byte and never any payload bytes —
an unhandled tag or argument mismatch emits nothing, and a short STRING
emits exactly the tag byte. -/
theorem claim3_at_most_tag_byte (tag : SerializationTag) (args : Payload) (e : CodecErr)
    (h : (Writer.write_token tag args).err = some e) :
    (Writer.write_token tag args).out = [] ∨
    (Writer.write_token tag args).out = Writer.write_tag tag := by
  cases tag <;> cases args <;>
    simp [Writer.write_token, Writer.write_tag, NOOP_TAGS, VARINT_TAGS] at h ⊢ <;>
    split_ifs at h ⊢ <;> simp_all

/-- Claim C3 witness: the amended statement at the short-STRING failure. -/
theorem claim3_witness :
    (Writer.write_token .STRING (.bytes [104])).out = [] ∨
    (Writer.write_token .STRING (.bytes [104])).out = Writer.write_tag .STRING :=
  claim3_at_most_tag_byte .STRING (.bytes [104]) .invalidPayload (by decide)

/-- Claim C4 counterexample: `SwapBytes.decode ∘ SwapBytes.encode` is not
the identity on every byte sequence. On the empty sequence the decoder
fails (the source evaluates `result[-1]` on an empty result), and on the
even-length sequence [0x41, 0x40], whose genuine last byte equals the
PADDING discriminant, the decoder drops that byte. -/
theorem claim4_counterexample :
    SwapBytes.decode (SwapBytes.encode []) = .error .indexError ∧
    SwapBytes.decode (SwapBytes.encode [65, 64]) = .ok [65] := ⟨rfl, rfl⟩

/-- Claim C4 as amended: `SwapBytes.decode (SwapBytes.encode b) = b` for
every non-empty byte sequence `b` that is of odd length or whose last byte
differs from the PADDING discriminant. -/
theorem claim4_swapbytes_roundtrip (b : List Nat) (hne : b ≠ [])
    (h : b.length % 2 = 1 ∨ b.getLast? ≠ some SerializationTag.PADDING.value) :
    SwapBytes.decode (SwapBytes.encode b) = .ok b := by
  by_cases hp : b.length % 2 = 0
  · obtain ⟨l, hb⟩ : ∃ l, b.getLast? = some l := by
      cases hbl : b.getLast? with
      | none => exact absurd (List.getLast?_eq_none_iff.mp hbl) hne
      | some l => exact ⟨l, rfl⟩
    have hl : l ≠ SerializationTag.PADDING.value := by
      intro he
      rcases h with h1 | h2
      · omega
      · exact h2 (he ▸ hb)
    have hr := swapbytes_decode_eval (SwapBytes.encode b) b l ?_ hb
    · rw [hr, if_neg hl]
    · rw [swapLoop_encode, if_pos hp]
  · have hr := swapbytes_decode_eval (SwapBytes.encode b)
        (b ++ [SerializationTag.PADDING.value]) SerializationTag.PADDING.value ?_
        (List.getLast?_concat _)
    · rw [hr, if_pos rfl, List.dropLast_concat]
    · rw [swapLoop_encode, if_neg hp]

/-- Claim C4 witness: the amended round-trip at an even-length and an
odd-length input. -/
theorem claim4_witness :
    SwapBytes.decode (SwapBytes.encode [104, 105]) = .ok [104, 105] ∧
    SwapBytes.decode (SwapBytes.encode [104, 105, 106]) = .ok [104, 105, 106] :=
  ⟨claim4_swapbytes_roundtrip [104, 105] (by decide) (Or.inr (by decide)),
   claim4_swapbytes_roundtrip [104, 105, 106] (by decide) (Or.inl (by decide))⟩

/-- Claim C5: a VERSION token with payload in [0,9] is written as the 0xFF
tag byte plus the varint and reads back as (VERSION, v); reading a VERSION
token whose payload exceeds 9 fails with UnsupportedVersion. -/
theorem claim5_version_gate (v : Nat) (rest : List Nat) :
    (v ≤ 9 →
      (Writer.write_token .VERSION (.vint v)).err = Option.none ∧
      (Writer.write_token .VERSION (.vint v)).out = 255 :: Varint.encode v ∧
      Reader.read_token (255 :: (Varint.encode v ++ rest)) = .ok ((.VERSION, .vint v), rest)) ∧
    (9 < v →
      Reader.read_token (255 :: (Varint.encode v ++ rest)) = .error .unsupportedVersion) := by
  constructor
  · intro hv
    refine ⟨rfl, rfl, ?_⟩
    rw [Reader.read_token_version_of _ v rest (Varint.decode_encode v rest), if_pos hv]
  · intro hv
    rw [Reader.read_token_version_of _ v rest (Varint.decode_encode v rest),
      if_neg (by omega)]

/-- Claim C5 witness: version 9 reads back and version 10 fails. -/
theorem claim5_witness :
    Reader.read_token (255 :: (Varint.encode 9 ++ [])) = .ok ((.VERSION, .vint 9), []) ∧
    Reader.read_token (255 :: (Varint.encode 10 ++ [])) = .error .unsupportedVersion :=
  ⟨((claim5_version_gate 9 []).1 (by norm_num)).2.2,
   (claim5_version_gate 10 []).2 (by norm_num)⟩

/-- Claim C6: `write_token(STRING, s)` fails with InvalidPayload for every
payload of length at most 1, and for longer payloads emits the tag byte,
the varint length and the raw bytes, which `read_token` reads back as
(STRING, s) consuming the whole token. -/
theorem claim6_string_write (s : List Nat) :
    (s.length ≤ 1 →
      (Writer.write_token .STRING (.bytes s)).err = some CodecErr.invalidPayload) ∧
    (1 < s.length →
      (Writer.write_token .STRING (.bytes s)).err = Option.none ∧
      (Writer.write_token .STRING (.bytes s)).out = 83 :: (Varint.encode s.length ++ s) ∧
      Reader.read_token (Writer.write_token .STRING (.bytes s)).out =
        .ok ((.STRING, .bytes s), [])) := by
  have hw : Writer.write_token .STRING (.bytes s) =
      if s.length > 1 then
        { out := [83] ++ Varint.encode s.length ++ s, err := Option.none }
      else { out := [83], err := some CodecErr.invalidPayload } := rfl
  constructor
  · intro hlen
    rw [hw, if_neg (by omega)]
  · intro hlen
    have hout : (Writer.write_token .STRING (.bytes s)).out =
        83 :: (Varint.encode s.length ++ s) := by
      rw [hw, if_pos hlen]
      simp
    refine ⟨by rw [hw, if_pos hlen], hout, ?_⟩
    rw [hout,
      Reader.read_token_string_of (Varint.encode s.length ++ s) s.length s s []
        (Varint.decode_encode _ _) (readBytes_all s)]

/-- Claim C6 witness: "h" fails the write and "hi" round-trips. -/
theorem claim6_witness :
    (Writer.write_token .STRING (.bytes [104])).err = some CodecErr.invalidPayload ∧
    Reader.read_token (Writer.write_token .STRING (.bytes [104, 105])).out =
      .ok ((.STRING, .bytes [104, 105]), []) :=
  ⟨(claim6_string_write [104]).1 (by norm_num),
   ((claim6_string_write [104, 105]).2 (by norm_num)).2.2⟩

/-- Claim C7: for every signed 32-bit integer `x`,
`ZigZag.decode (ZigZag.encode x) = x`, with the source's bit-31 test
selecting `((~x) << 1) + 1` for negatives and `x << 1` otherwise, and the
bit-0 test selecting `~(v >> 1)` or `v >> 1` on decode. -/
theorem claim7_zigzag_roundtrip (x : ℤ) (h1 : -(2 ^ 31) ≤ x) (h2 : x < 2 ^ 31) :
    ZigZag.decode (ZigZag.encode x) = x := by
  cases x with
  | ofNat m =>
    have hm : m < 2 ^ 31 := by
      have h31 : ((2 : ℤ) ^ 31) = 2147483648 := by norm_num
      rw [h31, show Int.ofNat m = (m : ℤ) from rfl] at h2
      omega
    rw [zigzag_encode_ofNat m hm, zigzag_decode_even]
  | negSucc m =>
    have hm : m < 2 ^ 31 := by
      rw [Int.negSucc_eq] at h1
      have h31 : ((2 : ℤ) ^ 31) = 2147483648 := by norm_num
      rw [h31] at h1
      omega
    rw [zigzag_encode_negSucc m hm, zigzag_decode_odd]

/-- Claim C7 witness: the round-trip at -1. -/
theorem claim7_witness : ZigZag.decode (ZigZag.encode (-1)) = -1 :=
  claim7_zigzag_roundtrip (-1) (by norm_num) (by norm_num)

/-- Claim C8: a byte with no SerializationTag mapping makes `read_tag`
(and hence `read_token`) fail with InvalidTag; no tag is ever returned for
such a byte. -/
theorem claim8_invalid_tag (b : Nat) (rest : List Nat)
    (h : SerializationTag.ofByte? b = Option.none) :
    Reader.read_tag (b :: rest) = .error .invalidTag ∧
    Reader.read_token (b :: rest) = .error .invalidTag := by
  have ht : Reader.read_tag (b :: rest) = .error .invalidTag := by
    simp [Reader.read_tag, h]
  refine ⟨ht, ?_⟩
  show Bind.bind (Reader.read_tag (b :: rest)) _ = _
  rw [ht]
  rfl

/-- Claim C8 witness: byte 0x01 is unmapped and fails both reads. -/
theorem claim8_witness :
    SerializationTag.ofByte? 1 = Option.none ∧
    Reader.read_tag [1] = .error .invalidTag ∧ Reader.read_token [1] = .error .invalidTag :=
  ⟨by decide, (claim8_invalid_tag 1 [] (by decide)).1, (claim8_invalid_tag 1 [] (by decide)).2⟩

/-- Claim C9: every tag of the vocabulary outside the handled set makes
`read_token` fail with NotImplemented carrying that tag, and makes
`write_token` fail the same way without emitting anything. -/
theorem claim9_not_implemented (t : SerializationTag) (h : t ∉ handledTags)
    (rest : List Nat) (args : Payload) :
    Reader.read_token (t.value :: rest) = .error (.notImplemented t) ∧
    (Writer.write_token t args).err = some (.notImplemented t) ∧
    (Writer.write_token t args).out = [] := by
  cases t <;> first
    | exact absurd (by decide) h
    | exact ⟨rfl, rfl, rfl⟩

/-- Claim C9 witness: MAP (byte ':') is unhandled and fails both ways. -/
theorem claim9_witness :
    SerializationTag.MAP ∉ handledTags ∧
    Reader.read_token [58] = .error (.notImplemented .MAP) ∧
    (Writer.write_token .MAP Payload.none).err = some (.notImplemented .MAP) ∧
    (Writer.write_token .MAP Payload.none).out = [] := by
  refine ⟨by decide, ?_, ?_, ?_⟩
  · exact (claim9_not_implemented .MAP (by decide) [] Payload.none).1
  · exact (claim9_not_implemented .MAP (by decide) [] Payload.none).2.1
  · exact (claim9_not_implemented .MAP (by decide) [] Payload.none).2.2

/-- Claim C10: the colliding tag bytes resolve to the first-declared
member. Byte '@' maps to PADDING (SPARSE_ARRAY is the same member), and
`read_token` on '@' returns (PADDING, no payload) consuming nothing
further; byte 'f' maps to FILE (FILE_INDEX is the same member); no decode
can yield a member distinct from those. -/
theorem claim10_alias_resolution (rest : List Nat) :
    SerializationTag.ofByte? 64 = some .PADDING ∧
    SerializationTag.SPARSE_ARRAY = .PADDING ∧
    SerializationTag.ofByte? 102 = some .FILE ∧
    SerializationTag.FILE_INDEX = .FILE ∧
    Reader.read_token (64 :: rest) = .ok ((.PADDING, .none), rest) :=
  ⟨rfl, rfl, rfl, rfl, rfl⟩

end V8
